import Mathlib

/-!
Verification of the GridTokenX energy-trading core specification.

The repository ships only HTTP test scripts (`tests/p2p_verify.py`,
`tests/zone_analytics_test.py`, `check_mint.py`); the matching and
settlement engine they exercise is not part of the repository.  The
engine components (meter-reading ledger, zone aggregator, escrow ledger,
order book, matching engine, settlement coordinator) are therefore
modelled here from the specification's component design (§3–§4.7), and
the pure helper functions that do live in the test scripts
(`get_env_var`, `verify_grid_status`) are embedded directly from the
Python source.  Monetary and energy quantities are rationals (the spec's
"decimal"), identifiers are naturals, and Python strings are lists of
characters.
-/

namespace GridTokenX

/-- Modelled from the spec: the two escrowable asset kinds (§3, EscrowEntry). -/
inductive AssetKind where
  | EnergyToken
  | CurrencyToken
deriving DecidableEq

/-- Modelled from the spec: order side (§3, Order). -/
inductive Side where
  | Buy
  | Sell
deriving DecidableEq

/-- Modelled from the spec: order status (§3, Order). -/
inductive OrderStatus where
  | Open
  | PartiallyFilled
  | Filled
  | Cancelled
deriving DecidableEq

/-- Modelled from the spec: a limit order (§3, Order).  `created_at` is a
logical timestamp used for time priority. -/
structure Order where
  order_id : Nat
  owner_id : Nat
  zone_id : Nat
  side : Side
  price_per_unit : ℚ
  total_amount : ℚ
  filled_amount : ℚ
  status : OrderStatus
  created_at : Nat
deriving DecidableEq

/-- Modelled from the spec: funds locked against one order (§3, EscrowEntry). -/
structure EscrowEntry where
  order_id : Nat
  owner_id : Nat
  asset_kind : AssetKind
  locked_amount : ℚ
deriving DecidableEq

/-- Modelled from the spec: the escrow ledger (§4.4): per-owner available
balances plus the escrow entries keyed by order. -/
structure EscrowLedger where
  available : Nat → AssetKind → ℚ
  entries : List EscrowEntry

/-- Modelled from the spec: escrow ledger failures (§4.4). -/
inductive EscrowError where
  | InsufficientBalance
  | Overconsumption
deriving DecidableEq

/-- Point update of a balance table: add `amt` to `owner`'s balance of asset `a`. -/
def credit (f : Nat → AssetKind → ℚ) (owner : Nat) (a : AssetKind) (amt : ℚ) :
    Nat → AssetKind → ℚ :=
  fun o k => if o = owner ∧ k = a then f o k + amt else f o k

/-- Modelled from the spec: `lock(order_id, asset_kind, amount)` (§4.4) —
checks the owner's available balance and moves `amount` into a new
EscrowEntry. -/
def EscrowLedger.lock (L : EscrowLedger) (oid owner : Nat) (a : AssetKind) (amt : ℚ) :
    Except EscrowError EscrowLedger :=
  if L.available owner a < amt then .error .InsufficientBalance
  else .ok { available := credit L.available owner a (-amt),
             entries := L.entries ++ [⟨oid, owner, a, amt⟩] }

/-- Modelled from the spec: `release(order_id) -> amount_returned` (§4.4) —
returns any remaining locked_amount to the owner's available balance;
releasing an entry a second time finds `locked_amount = 0` and is a no-op
returning 0. -/
def EscrowLedger.release (L : EscrowLedger) (oid : Nat) : EscrowLedger × ℚ :=
  match L.entries.find? (fun e => e.order_id == oid) with
  | none => (L, 0)
  | some e =>
      ({ available := credit L.available e.owner_id e.asset_kind e.locked_amount,
         entries := L.entries.map fun e2 =>
           if e2.order_id == oid then { e2 with locked_amount := 0 } else e2 },
       e.locked_amount)

/-- Modelled from the spec: `consume(order_id, amount)` (§4.4) — decrements
locked_amount by `amount` as part of settlement; fails with
`Overconsumption` if `amount` exceeds the currently locked amount. -/
def EscrowLedger.consume (L : EscrowLedger) (oid : Nat) (amt : ℚ) :
    Except EscrowError EscrowLedger :=
  match L.entries.find? (fun e => e.order_id == oid) with
  | none => .error .Overconsumption
  | some e =>
      if e.locked_amount < amt then .error .Overconsumption
      else .ok { L with entries := L.entries.map fun e2 =>
        if e2.order_id == oid then { e2 with locked_amount := e2.locked_amount - amt }
        else e2 }

/-- Modelled from the spec: the durable record of a settled match (§3, Trade). -/
structure Trade where
  trade_id : Nat
  buy_order_id : Nat
  sell_order_id : Nat
  zone_id : Nat
  price_per_unit : ℚ
  matched_amount : ℚ
  settled_at : Nat
deriving DecidableEq

/-- Modelled from the spec: the trading core's state — escrow ledger, order
table, trade log, id counters and a logical clock for `created_at`. -/
structure System where
  escrow : EscrowLedger
  orders : List Order
  trades : List Trade
  next_order_id : Nat
  next_trade_id : Nat
  clock : Nat

/-- Modelled from the spec: applying a fill of `amt` to an order (§4.6 step 5):
filled_amount increases; at equality with total_amount the order is Filled,
otherwise PartiallyFilled. -/
def applyFill (o : Order) (amt : ℚ) : Order :=
  let f := o.filled_amount + amt
  { o with filled_amount := f,
           status := if f = o.total_amount then .Filled else .PartiallyFilled }

/-- Modelled from the spec: cancellation (§3/§5) — transitions a non-terminal
order to Cancelled; Filled and Cancelled are terminal, no further mutation. -/
def cancelOrder (o : Order) : Order :=
  if o.status = OrderStatus.Filled ∨ o.status = OrderStatus.Cancelled then o
  else { o with status := .Cancelled }

/-- Replace the order with id `oid` in the table by `f` applied to it. -/
def updateOrder (os : List Order) (oid : Nat) (f : Order → Order) : List Order :=
  os.map fun o => if o.order_id == oid then f o else o

/-- Modelled from the spec: the fatal error class raised when an escrow
`consume` fails during settlement (§7, ConsistencyFault). -/
inductive ConsistencyFault where
  | EscrowConsumeFailed
deriving DecidableEq

/-- Modelled from the spec: `settle(buy_order, sell_order, price, amount)`
(§4.7) — a single all-or-nothing unit: consume `amount` of the seller's
energy escrow, consume `amount * price` of the buyer's currency escrow,
credit the seller's available currency by `amount * price`, credit the
buyer's available energy by `amount`, append a Trade record, and apply the
fill to both orders.  If either `consume` fails the whole settlement
aborts with a ConsistencyFault and no state is produced. -/
def settle (s : System) (buy sell : Order) (price amt : ℚ) :
    Except ConsistencyFault (System × Trade) :=
  match s.escrow.consume sell.order_id amt with
  | .error _ => .error .EscrowConsumeFailed
  | .ok L1 =>
    match L1.consume buy.order_id (amt * price) with
    | .error _ => .error .EscrowConsumeFailed
    | .ok L2 =>
      let av1 := credit L2.available sell.owner_id AssetKind.CurrencyToken (amt * price)
      let av2 := credit av1 buy.owner_id AssetKind.EnergyToken amt
      let L3 : EscrowLedger := { L2 with available := av2 }
      let t : Trade :=
        ⟨s.next_trade_id, buy.order_id, sell.order_id, buy.zone_id, price, amt, s.clock⟩
      .ok ({ s with
              escrow := L3,
              trades := s.trades ++ [t],
              orders := updateOrder (updateOrder s.orders buy.order_id (applyFill · amt))
                          sell.order_id (applyFill · amt),
              next_trade_id := s.next_trade_id + 1 }, t)

/-- Run `settle` as the caller sees it: on success the new state, on a
ConsistencyFault the caller keeps the original state (flag `false`). -/
def settleApply (s : System) (buy sell : Order) (price amt : ℚ) : System × Bool :=
  match settle s buy sell price amt with
  | .ok (s2, _) => (s2, true)
  | .error _ => (s, false)

/-- An order still in the book: Open or PartiallyFilled (§4.5 — the book
never stores Cancelled or Filled orders). -/
def isActive (o : Order) : Bool :=
  o.status == OrderStatus.Open || o.status == OrderStatus.PartiallyFilled

/-- Unfilled remainder of an order. -/
def remaining (o : Order) : ℚ := o.total_amount - o.filled_amount

/-- Orders of one side standing in one zone's book. -/
def sideOrders (s : System) (zone : Nat) (sd : Side) : List Order :=
  s.orders.filter fun o => isActive o && o.zone_id == zone && o.side == sd

/-- Modelled from the spec: buy-side priority (§4.5) — highest price first,
ties broken by earliest created_at. -/
def betterBuy (a b : Order) : Order :=
  if a.price_per_unit < b.price_per_unit then b
  else if b.price_per_unit < a.price_per_unit then a
  else if b.created_at < a.created_at then b else a

/-- Modelled from the spec: sell-side priority (§4.5) — lowest price first,
ties broken by earliest created_at. -/
def betterSell (a b : Order) : Order :=
  if b.price_per_unit < a.price_per_unit then b
  else if a.price_per_unit < b.price_per_unit then a
  else if b.created_at < a.created_at then b else a

/-- Fold a priority rule over a list of orders to pick the best one. -/
def pickBest (f : Order → Order → Order) : List Order → Option Order :=
  List.foldl (fun acc o =>
    match acc with
    | none => some o
    | some a => some (f a o)) none

/-- Modelled from the spec: `best_buy(zone_id)` (§4.5). -/
def bestBuy (s : System) (zone : Nat) : Option Order :=
  pickBest betterBuy (sideOrders s zone Side.Buy)

/-- Modelled from the spec: `best_sell(zone_id)` (§4.5). -/
def bestSell (s : System) (zone : Nat) : Option Order :=
  pickBest betterSell (sideOrders s zone Side.Sell)

/-- Modelled from the spec: execution price (§4.6 step 2) — the resting
order's price, i.e. the price of the order that arrived earlier of the two
tops; on exactly equal arrival the Sell side's price is used. -/
def execPrice (buy sell : Order) : ℚ :=
  if buy.created_at < sell.created_at then buy.price_per_unit
  else if sell.created_at < buy.created_at then sell.price_per_unit
  else sell.price_per_unit

/-- Modelled from the spec: one matching step for a zone (§4.6 steps 1–5):
fetch both tops; if they cross, settle `min` of the remainders at the
execution price.  `none` when there is no crossing pair. -/
def matchStepZone (s : System) (zone : Nat) :
    Option (Except ConsistencyFault (System × Trade)) :=
  match bestBuy s zone, bestSell s zone with
  | some b, some sl =>
      if sl.price_per_unit ≤ b.price_per_unit then
        some (settle s b sl (execPrice b sl) (min (remaining b) (remaining sl)))
      else none
  | _, _ => none

/-- The trade produced by one matching step, if the step ran and settled. -/
def matchTrade (s : System) (zone : Nat) : Option Trade :=
  match matchStepZone s zone with
  | some (.ok (_, t)) => some t
  | _ => none

/-- Modelled from the spec: the per-zone matching loop (§4.6 step 6) —
repeat while the tops cross; a ConsistencyFault halts matching for the
zone.  `fuel` bounds the number of steps. -/
def matchLoopZone : Nat → System → Nat → System
  | 0, s, _ => s
  | fuel + 1, s, zone =>
      match matchStepZone s zone with
      | some (.ok (s2, _)) => matchLoopZone fuel s2 zone
      | _ => s

/-- Modelled from the spec: order creation (§6, POST orders): lock the
offered side's escrow (energy `amount` for Sell, currency `amount * price`
for Buy), then insert the Open order stamped with the current clock. -/
def createOrder (s : System) (owner zone : Nat) (sd : Side) (price amount : ℚ) :
    Except EscrowError System :=
  let oid := s.next_order_id
  let lockRes :=
    match sd with
    | .Sell => s.escrow.lock oid owner AssetKind.EnergyToken amount
    | .Buy => s.escrow.lock oid owner AssetKind.CurrencyToken (amount * price)
  match lockRes with
  | .error e => .error e
  | .ok L =>
      .ok { s with
              escrow := L,
              orders := s.orders ++ [⟨oid, owner, zone, sd, price, amount, 0, .Open, s.clock⟩],
              next_order_id := oid + 1,
              clock := s.clock + 1 }

/-- Modelled from the spec: mint status of a meter reading (§3, MeterReading). -/
inductive MintStatus where
  | Unminted
  | Minting
  | Minted
  | MintFailed
deriving DecidableEq

/-- Modelled from the spec: one immutable meter reading (§3, MeterReading). -/
structure MeterReading where
  reading_id : Nat
  meter_id : Nat
  zone_id : Nat
  kwh : ℚ
  mint_status : MintStatus
deriving DecidableEq

/-- Modelled from the spec: the append-only meter reading ledger (§4.1). -/
structure ReadingLedger where
  readings : List MeterReading
  next_reading_id : Nat
deriving DecidableEq

/-- Modelled from the spec: validation failure for reading submission (§7). -/
inductive ReadingError where
  | InvalidReading
deriving DecidableEq

/-- Modelled from the spec: `record_reading(meter_id, zone_id, kwh)` (§4.1) —
fails with InvalidReading if kwh ≤ 0, leaving the ledger untouched;
otherwise appends one new record with status Unminted. -/
def record_reading (L : ReadingLedger) (meter zone : Nat) (kwh : ℚ) :
    ReadingLedger × Except ReadingError MeterReading :=
  if kwh ≤ 0 then (L, .error .InvalidReading)
  else
    let r : MeterReading := ⟨L.next_reading_id, meter, zone, kwh, .Unminted⟩
    ({ readings := L.readings ++ [r], next_reading_id := L.next_reading_id + 1 }, .ok r)

/-- Modelled from the spec: result of `mark_minting` (§4.1).  `NotMintable`
covers the cases the spec routes elsewhere (unknown reading id, or a
MintFailed reading, whose retry is a distinct operator path). -/
inductive MarkResult where
  | ok
  | AlreadyMinting
  | AlreadyMinted
  | NotMintable
deriving DecidableEq

/-- Look up a reading by id. -/
def findReading (L : ReadingLedger) (rid : Nat) : Option MeterReading :=
  L.readings.find? (fun r => r.reading_id == rid)

/-- Set the mint status of the reading with id `rid`. -/
def setStatus (L : ReadingLedger) (rid : Nat) (st : MintStatus) : ReadingLedger :=
  { L with readings := L.readings.map fun r =>
      if r.reading_id == rid then { r with mint_status := st } else r }

/-- Modelled from the spec: `mark_minting(reading_id)` (§4.1) — transitions
Unminted→Minting with compare-and-swap semantics on the status: the
transition succeeds only from Unminted, a Minting reading answers
AlreadyMinting, a Minted one AlreadyMinted. -/
def mark_minting (L : ReadingLedger) (rid : Nat) : ReadingLedger × MarkResult :=
  match findReading L rid with
  | none => (L, .NotMintable)
  | some r =>
      match r.mint_status with
      | .Unminted => (setStatus L rid .Minting, .ok)
      | .Minting => (L, .AlreadyMinting)
      | .Minted => (L, .AlreadyMinted)
      | .MintFailed => (L, .NotMintable)

/-- A linearization of `n` concurrent callers all attempting `mark_minting`
on the same reading: the attempts execute one after the other (the CAS on
the status admits exactly such a serialization), collecting each caller's
result. -/
def markMintingRun : ReadingLedger → Nat → Nat → ReadingLedger × List MarkResult
  | L, _, 0 => (L, [])
  | L, rid, Nat.succ n =>
      let step := mark_minting L rid
      let rest := markMintingRun step.1 rid n
      (rest.1, step.2 :: rest.2)

/-- Modelled from the spec: per-zone running statistics (§3, ZoneStat),
with the distinct seen-meter set backing active_meter_count. -/
structure ZoneStat where
  zone_id : Nat
  seen_meters : List Nat
  active_meter_count : Nat
  total_generated_kwh : ℚ
  total_consumed_kwh : ℚ
deriving DecidableEq

/-- Modelled from the spec: the Zone Aggregator's state (§4.3) — one lazily
created accumulator per zone. -/
def ZoneAggregator : Type := Nat → Option ZoneStat

/-- The aggregator before any reading is observed. -/
def emptyAggregator : ZoneAggregator := fun _ => none

/-- Modelled from the spec: `observe(reading)` (§4.3) — readings are
generation-only in this system, so all kwh adds to total_generated_kwh;
the meter id joins the zone's seen-meter set if new, and
active_meter_count is the size of that set. -/
def observe (A : ZoneAggregator) (r : MeterReading) : ZoneAggregator := fun z =>
  if z = r.zone_id then
    match A r.zone_id with
    | none => some ⟨r.zone_id, [r.meter_id], 1, r.kwh, 0⟩
    | some st =>
        let seen :=
          if st.seen_meters.contains r.meter_id then st.seen_meters
          else st.seen_meters ++ [r.meter_id]
        some { st with
                seen_meters := seen,
                active_meter_count := seen.length,
                total_generated_kwh := st.total_generated_kwh + r.kwh }
  else A z

/-- The generated-kwh accumulator of zone `z` (0 before the zone exists). -/
def total_generated_kwh (A : ZoneAggregator) (z : Nat) : ℚ :=
  match A z with
  | none => 0
  | some st => st.total_generated_kwh

/-- Observe a whole stream of readings in order. -/
def observeAll (A : ZoneAggregator) (rs : List MeterReading) : ZoneAggregator :=
  rs.foldl observe A

/-- Concrete scenario (spec §8): initial balances — the seller (owner 1)
holds 10 energy tokens from the minted reading, the buyer (owner 2) holds
20 currency units; everyone else holds nothing. -/
def scenarioAvail : Nat → AssetKind → ℚ := fun o a =>
  if o = 1 ∧ a = AssetKind.EnergyToken then 10
  else if o = 2 ∧ a = AssetKind.CurrencyToken then 20
  else 0

/-- The empty trading system over the scenario's initial balances. -/
def scenarioSys0 : System := ⟨⟨scenarioAvail, []⟩, [], [], 0, 0, 0⟩

/-- Concrete scenario (spec §8): create the Sell order (zone 1, 10 kWh @ 2.0,
owner 1), then the Buy order (zone 1, 10 kWh @ 2.0, owner 2), then run the
matching loop for zone 1.  `none` if either order creation fails. -/
def scenarioRun : Option System :=
  match createOrder scenarioSys0 1 1 Side.Sell 2 10 with
  | .error _ => none
  | .ok s1 =>
      match createOrder s1 2 1 Side.Buy 2 10 with
      | .error _ => none
      | .ok s2 => some (matchLoopZone 2 s2 1)

/-- Small two-order crossing system used to witness matching-engine facts:
a resting Sell (id 0, owner 1, 10 @ 2, created_at 0) and a later Buy
(id 1, owner 2, 10 @ 3, created_at 1), with matching escrow entries. -/
def crossSys : System :=
  ⟨⟨fun _ _ => 0, [⟨0, 1, AssetKind.EnergyToken, 10⟩, ⟨1, 2, AssetKind.CurrencyToken, 30⟩]⟩,
   [⟨0, 1, 1, Side.Sell, 2, 10, 0, OrderStatus.Open, 0⟩,
    ⟨1, 2, 1, Side.Buy, 3, 10, 0, OrderStatus.Open, 1⟩],
   [], 2, 0, 2⟩

/-- A one-reading ledger used in witnesses: reading 5 is Unminted. -/
def witnessLedger : ReadingLedger :=
  ⟨[⟨5, 7, 1, 10, MintStatus.Unminted⟩], 6⟩

/-- A fresh 10 kWh Sell order used in witnesses. -/
def witnessOrder : Order := ⟨0, 1, 1, Side.Sell, 2, 10, 0, OrderStatus.Open, 0⟩

/-- A 10 kWh reading by meter 7 in zone 1, used in witnesses. -/
def witnessReading : MeterReading := ⟨0, 7, 1, 10, MintStatus.Unminted⟩

/-- Modelled from the spec: the order-state invariant (§3/§8) —
`0 ≤ filled_amount ≤ total_amount`, and filled_amount = total_amount
forces status Filled. -/
def OrderInvariant (o : Order) : Prop :=
  0 ≤ o.filled_amount ∧ o.filled_amount ≤ o.total_amount ∧
    (o.filled_amount = o.total_amount → o.status = OrderStatus.Filled)

end GridTokenX

namespace PyHarness

/-!
Shallow embedding of the pure fragments of the repository's Python test
scripts.  Python strings are `List Char`; a text file is `Option` of its
line list (`none` when opening raises); JSON values mirror what
`response.json()` can produce, with object keys as strings.
-/

/-- Python `str.split(sep)` for a one-character separator: splits on every
occurrence, keeping empty pieces, and yields one piece even for the empty
string. -/
def pySplit (sep : Char) : List Char → List (List Char)
  | [] => [[]]
  | c :: cs =>
      if c = sep then [] :: pySplit sep cs
      else
        match pySplit sep cs with
        | [] => [c :: []]
        | p :: ps => (c :: p) :: ps

/-- Python `str.strip()`: drop whitespace from both ends. -/
def pyStrip (l : List Char) : List Char :=
  ((l.dropWhile Char.isWhitespace).reverse.dropWhile Char.isWhitespace).reverse

/-- Embedded from `tests/p2p_verify.py`, `get_env_var`: scan the lines of
`../.env` for the first one starting with `key=` and return
`line.strip().split("=")[1]`; any failure (file unreadable, no matching
line) yields `None`. -/
def get_env_var (file : Option (List (List Char))) (key : List Char) :
    Option (List Char) :=
  match file with
  | none => none
  | some lines =>
      match lines.find? (fun l => (key ++ [ '=' ]).isPrefixOf l) with
      | none => none
      | some l => (pySplit '=' (pyStrip l)).get? 1

/-- JSON values as decoded by Python's `response.json()`; object keys are
always strings. -/
inductive Json where
  | null
  | bool (b : Bool)
  | num (q : ℚ)
  | str (s : List Char)
  | arr (xs : List Json)
  | obj (kvs : List (List Char × Json))

/-- Python truthiness of a decoded JSON value: None, False, 0, "", [] and
\x7b\x7d are falsy. -/
def truthy : Json → Bool
  | .null => false
  | .bool b => b
  | .num q => decide (q ≠ 0)
  | .str s => !s.isEmpty
  | .arr xs => !xs.isEmpty
  | .obj kvs => !kvs.isEmpty

/-- Truthiness of a `dict.get` result: Python `None` is falsy. -/
def truthyOpt : Option Json → Bool
  | none => false
  | some j => truthy j

/-- Python `a or b` over `dict.get` results: `a` if truthy, else `b`. -/
def pyOr (a b : Option Json) : Option Json :=
  if truthyOpt a then a else b

/-- Python `d.get(k)`: `none` (outer) models the AttributeError raised when
the receiver is not a dict; otherwise `some` of the looked-up value
(`none` inner = key absent, Python `None`). -/
def dictGet : Json → List Char → Option (Option Json)
  | .obj kvs, k => some ((kvs.find? (fun kv => kv.1 == k)).map (fun kv => kv.2))
  | _, _ => none

/-- Outcome of a checked step in `zone_analytics_test.py`: `failed` is
`print_fail`, which calls `sys.exit(1)`. -/
inductive TestOutcome where
  | passed
  | failed
deriving DecidableEq

/-- Embedded from `tests/zone_analytics_test.py`, `verify_grid_status`
(assuming the HTTP fetch returned 200 with body `data`): compare
`data.get("active_meters", 0)` against `expected_min_meters`, then under
`check_zones` require a truthy `zones` field and truthy zone entries
`zones.get("1") or zones.get(1)` and `zones.get("2") or zones.get(2)`
(the int-keyed lookups are always `None`, since JSON-decoded dicts have
string keys).  The outer `none` models an uncaught Python exception
(TypeError on the comparison or AttributeError on `.get`). -/
def verify_grid_status (data : Json) (expected_min_meters : ℚ)
    (check_zones : Bool) : Option TestOutcome :=
  match dictGet data ("active_meters".toList) with
  | none => none
  | some amOpt =>
      match amOpt.getD (Json.num 0) with
      | .num q =>
          if q < expected_min_meters then some .failed
          else if check_zones then
            match dictGet data ("zones".toList) with
            | none => none
            | some zOpt =>
                if truthyOpt zOpt then
                  match zOpt with
                  | some zj =>
                      match dictGet zj ("1".toList) with
                      | none => none
                      | some z1raw =>
                          let z1 := pyOr z1raw none
                          if truthyOpt z1 then
                            match dictGet zj ("2".toList) with
                            | none => none
                            | some z2raw =>
                                let z2 := pyOr z2raw none
                                if truthyOpt z2 then some .passed
                                else some .failed
                          else some .failed
                  | none => some .failed
                else some .failed
          else some .passed
      | _ => none

/-- A grid-status response body with the given `active_meters` count and
`zones` object, as `response.json()` would decode it. -/
def mkGridData (am : ℚ) (zs : List (List Char × Json)) : Json :=
  Json.obj [("active_meters".toList, Json.num am), ("zones".toList, Json.obj zs)]

end PyHarness

/-! ## Helper lemmas -/

/-- A map whose function leaves the search predicate unchanged commutes
with `find?`. -/
theorem find?_map_invariant {α : Type} (f : α → α) (p : α → Bool)
    (hp : ∀ a, p (f a) = p a) :
    ∀ l : List α, (l.map f).find? p = (l.find? p).map f := by
  intro l
  induction l with
  | nil => rfl
  | cons a as ih =>
      cases hpa : p a with
      | true =>
          rw [List.map_cons, List.find?_cons_of_pos _ ((hp a).trans hpa),
            List.find?_cons_of_pos _ hpa, Option.map_some']
      | false =>
          rw [List.map_cons, List.find?_cons_of_neg _ (by simp [hp, hpa]),
            List.find?_cons_of_neg _ (by simp [hpa]), ih]

/-- Mapping an idempotent function twice is the same as mapping it once. -/
theorem map_map_idem {α : Type} (f : α → α) (hf : ∀ a, f (f a) = f a) :
    ∀ l : List α, (l.map f).map f = l.map f := by
  intro l
  induction l with
  | nil => rfl
  | cons a as ih => simp only [List.map_cons, hf, ih]

namespace GridTokenX

/-! ## Claim theorems: trading core -/

/-- C6: `record_reading(meter_id, zone_id, kwh)` fails with InvalidReading
if and only if kwh ≤ 0, in which case the ledger is unchanged; for every
kwh > 0 it succeeds and appends exactly one new record with mint_status
Unminted. -/
theorem c6_record_reading_validation (L : ReadingLedger) (m z : Nat) (kwh : ℚ) :
    (kwh ≤ 0 → record_reading L m z kwh = (L, .error .InvalidReading)) ∧
    (0 < kwh →
      (record_reading L m z kwh).1.readings =
        L.readings ++ [⟨L.next_reading_id, m, z, kwh, .Unminted⟩] ∧
      (record_reading L m z kwh).1.next_reading_id = L.next_reading_id + 1 ∧
      (record_reading L m z kwh).2 =
        .ok ⟨L.next_reading_id, m, z, kwh, .Unminted⟩) := by
  constructor
  · intro h
    simp only [record_reading, if_pos h]
  · intro h
    have h2 : ¬ kwh ≤ 0 := not_le.mpr h
    simp [record_reading, if_neg h2]

/-- Witness for C6 at concrete inputs: kwh = -1 is rejected leaving the
ledger unchanged, kwh = 5 is recorded as Unminted. -/
theorem c6_record_reading_validation_witness :
    record_reading witnessLedger 7 1 (-1) = (witnessLedger, .error .InvalidReading) ∧
    (record_reading witnessLedger 7 1 5).2 =
      .ok ⟨witnessLedger.next_reading_id, 7, 1, 5, .Unminted⟩ :=
  ⟨(c6_record_reading_validation witnessLedger 7 1 (-1)).1 (by norm_num),
   ((c6_record_reading_validation witnessLedger 7 1 5).2 (by norm_num)).2.2⟩

/-- C2: the order invariant `0 ≤ filled_amount ≤ total_amount`, with
equality forcing status Filled, is preserved by the two mutating
operations — a settlement fill (nonnegative, within the remaining
amount) and cancellation. -/
theorem c2_order_invariant_preserved (o : Order) (amt : ℚ) :
    (OrderInvariant o → 0 ≤ amt → o.filled_amount + amt ≤ o.total_amount →
      OrderInvariant (applyFill o amt)) ∧
    (OrderInvariant o → OrderInvariant (cancelOrder o)) := by
  constructor
  · rintro ⟨h0, _, _⟩ ha hle
    refine ⟨add_nonneg h0 ha, hle, ?_⟩
    intro heq
    simp only [applyFill] at heq ⊢
    rw [if_pos heq]
  · rintro ⟨h0, hle, himp⟩
    unfold cancelOrder
    by_cases hterm : o.status = OrderStatus.Filled ∨ o.status = OrderStatus.Cancelled
    · rw [if_pos hterm]
      exact ⟨h0, hle, himp⟩
    · rw [if_neg hterm]
      refine ⟨h0, hle, ?_⟩
      intro heq
      exact absurd (Or.inl (himp heq)) hterm

/-- Witness for C2: filling the witness order by 4 within its total, and
cancelling it, both preserve the invariant. -/
theorem c2_order_invariant_preserved_witness :
    OrderInvariant (applyFill witnessOrder 4) ∧ OrderInvariant (cancelOrder witnessOrder) :=
  have hinv : OrderInvariant witnessOrder :=
    ⟨by norm_num [witnessOrder], by norm_num [witnessOrder],
     fun h => absurd h (by norm_num [witnessOrder])⟩
  ⟨(c2_order_invariant_preserved witnessOrder 4).1 hinv (by norm_num)
      (by norm_num [witnessOrder]),
   (c2_order_invariant_preserved witnessOrder 4).2 hinv⟩

/-- Equation lemma for `release` when the entry is found. -/
theorem release_found (L : EscrowLedger) (oid : Nat) (e : EscrowEntry)
    (h : L.entries.find? (fun x => x.order_id == oid) = some e) :
    L.release oid =
      (⟨credit L.available e.owner_id e.asset_kind e.locked_amount,
        L.entries.map fun e2 =>
          if e2.order_id == oid then { e2 with locked_amount := 0 } else e2⟩,
       e.locked_amount) := by
  simp [EscrowLedger.release, h]

/-- C7: `release(order_id)` is idempotent — a second release of the same
order returns 0 and leaves both the available balances and the escrow
entries exactly as the first release left them, so release composed with
itself has the total effect of a single release. -/
theorem c7_release_idempotent (L : EscrowLedger) (oid : Nat) :
    ((L.release oid).1.release oid).2 = 0 ∧
    (∀ o a, ((L.release oid).1.release oid).1.available o a =
      (L.release oid).1.available o a) ∧
    ((L.release oid).1.release oid).1.entries = (L.release oid).1.entries := by
  cases h : L.entries.find? (fun e => e.order_id == oid) with
  | none =>
      have hrel : L.release oid = (L, 0) := by
        simp [EscrowLedger.release, h]
      rw [hrel]
      rw [hrel]
      exact ⟨rfl, fun o a => rfl, rfl⟩
  | some e =>
      have hp : (e.order_id == oid) = true := by
        have := List.find?_some h
        simpa using this
      have hpres : ∀ a : EscrowEntry,
          ((if a.order_id == oid then { a with locked_amount := 0 } else a).order_id == oid)
            = (a.order_id == oid) := by
        intro a
        by_cases ha : a.order_id == oid
        · simp [ha]
        · simp [ha]
      have hfind2 : (L.entries.map (fun e2 =>
          if e2.order_id == oid then { e2 with locked_amount := 0 } else e2)).find?
            (fun e2 => e2.order_id == oid) = some { e with locked_amount := 0 } := by
        rw [find?_map_invariant _ _ hpres, h, Option.map_some', if_pos hp]
      have hrel1 := release_found L oid e h
      have hrel2 := release_found
        ⟨credit L.available e.owner_id e.asset_kind e.locked_amount,
         L.entries.map (fun e2 =>
           if e2.order_id == oid then { e2 with locked_amount := 0 } else e2)⟩
        oid { e with locked_amount := 0 } hfind2
      refine ⟨?_, ?_, ?_⟩
      · simp only [hrel1, hrel2]
      · intro o a
        simp only [hrel1, hrel2, credit]
        by_cases hc : o = e.owner_id ∧ a = e.asset_kind
        · rw [if_pos hc, add_zero]
        · rw [if_neg hc]
      · simp only [hrel1, hrel2]
        exact map_map_idem _
          (fun a => by by_cases ha : a.order_id == oid <;> simp [ha]) L.entries

/-- C1: settlement is all-or-nothing — whenever either escrow `consume`
call fails, `settle` aborts with a ConsistencyFault and the caller's state
is exactly the pre-settlement state: no escrow entry decremented, no
available balance credited, no Trade appended, no order changed. -/
theorem c1_settle_all_or_nothing (s : System) (buy sell : Order) (price amt : ℚ)
    (h : (∃ e, s.escrow.consume sell.order_id amt = .error e) ∨
         (∃ L1 e, s.escrow.consume sell.order_id amt = .ok L1 ∧
            L1.consume buy.order_id (amt * price) = .error e)) :
    settleApply s buy sell price amt = (s, false) ∧
    (settleApply s buy sell price amt).1.escrow.entries = s.escrow.entries ∧
    (∀ o k, (settleApply s buy sell price amt).1.escrow.available o k =
      s.escrow.available o k) ∧
    (settleApply s buy sell price amt).1.trades = s.trades ∧
    (settleApply s buy sell price amt).1.orders = s.orders := by
  have hs : settle s buy sell price amt = .error .EscrowConsumeFailed := by
    rcases h with ⟨e, he⟩ | ⟨L1, e, h1, h2⟩
    · simp [settle, he]
    · simp [settle, h1, h2]
  have ha : settleApply s buy sell price amt = (s, false) := by
    simp [settleApply, hs]
  refine ⟨ha, ?_, ?_, ?_, ?_⟩ <;> rw [ha]
  · intro o k; rfl

/-- Witness for C1: settling against an empty escrow ledger fails the first
`consume` and returns the state unchanged. -/
theorem c1_settle_all_or_nothing_witness :
    settleApply scenarioSys0 witnessOrder witnessOrder 2 10 = (scenarioSys0, false) :=
  (c1_settle_all_or_nothing scenarioSys0 witnessOrder witnessOrder 2 10
    (Or.inl ⟨.Overconsumption, rfl⟩)).1

/-- The trade a successful `settle` produces records exactly the price it
was invoked with. -/
theorem settle_trade_price (s : System) (b sl : Order) (p a : ℚ) (s2 : System)
    (t : Trade) (h : settle s b sl p a = .ok (s2, t)) : t.price_per_unit = p := by
  unfold settle at h
  split at h
  · exact absurd h (by simp)
  · split at h
    · exact absurd h (by simp)
    · simp only [Except.ok.injEq, Prod.mk.injEq] at h
      rw [← h.2]

/-- C5: every match the engine produces between crossing tops executes at
the resting order's price — the price of the top whose created_at is
earlier — and on exactly equal arrival times the Sell side's price is
used. -/
theorem c5_execution_price_resting (s : System) (zone : Nat) (b sl : Order) (t : Trade)
    (hb : bestBuy s zone = some b) (hs : bestSell s zone = some sl)
    (ht : matchTrade s zone = some t) :
    (b.created_at < sl.created_at → t.price_per_unit = b.price_per_unit) ∧
    (sl.created_at < b.created_at → t.price_per_unit = sl.price_per_unit) ∧
    (b.created_at = sl.created_at → t.price_per_unit = sl.price_per_unit) := by
  unfold matchTrade matchStepZone at ht
  rw [hb, hs] at ht
  dsimp only at ht
  by_cases hcross : sl.price_per_unit ≤ b.price_per_unit
  · rw [if_pos hcross] at ht
    cases hsettle : settle s b sl (execPrice b sl) (min (remaining b) (remaining sl)) with
    | error e => rw [hsettle] at ht; exact absurd ht (by simp)
    | ok pr =>
        obtain ⟨s2, t2⟩ := pr
        rw [hsettle] at ht
        simp only [Option.some.injEq] at ht
        have hprice : t.price_per_unit = execPrice b sl := by
          rw [← ht]
          exact settle_trade_price s b sl _ _ s2 t2 hsettle
        refine ⟨?_, ?_, ?_⟩
        · intro hlt
          rw [hprice]
          unfold execPrice
          rw [if_pos hlt]
        · intro hlt
          rw [hprice]
          unfold execPrice
          rw [if_neg (by omega), if_pos hlt]
        · intro heq
          rw [hprice]
          unfold execPrice
          rw [if_neg (by omega), if_neg (by omega)]
  · rw [if_neg hcross] at ht
    exact absurd ht (by simp)

/-- Witness for C5 on `crossSys`: the resting Sell (created_at 0) is earlier
than the Buy (created_at 1), so the produced trade's price is the Sell's
price 2, not the Buy's 3. -/
theorem c5_execution_price_resting_witness :
    (Trade.mk 0 1 0 1 2 10 2).price_per_unit = (2 : ℚ) :=
  (c5_execution_price_resting crossSys 1
      ⟨1, 2, 1, Side.Buy, 3, 10, 0, OrderStatus.Open, 1⟩
      ⟨0, 1, 1, Side.Sell, 2, 10, 0, OrderStatus.Open, 0⟩
      ⟨0, 1, 0, 1, 2, 10, 2⟩
      (by with_unfolding_all decide) (by with_unfolding_all decide)
      (by with_unfolding_all decide)).2.1 (by decide)

/-- C8: the spec's end-to-end scenario — with the seller holding 10 energy
tokens and the buyer 20 currency units, a Sell of 10 kWh @ 2.0 followed by
a crossing Buy of 10 kWh @ 2.0 in zone 1 matches into exactly one Trade of
amount 10 at price 2.0, both orders end Filled with filled_amount 10, the
seller's available currency rises from 0 to 20 and the buyer's available
energy from 0 to 10. -/
theorem c8_scenario_single_trade :
    (scenarioRun.map (fun s => s.trades)) = some [⟨0, 1, 0, 1, 2, 10, 2⟩] ∧
    (scenarioRun.map (fun s => s.orders.map (fun o => (o.status, o.filled_amount)))) =
      some [(OrderStatus.Filled, 10), (OrderStatus.Filled, 10)] ∧
    (scenarioRun.map (fun s => s.escrow.available 1 AssetKind.CurrencyToken)) = some 20 ∧
    (scenarioRun.map (fun s => s.escrow.available 2 AssetKind.EnergyToken)) = some 10 ∧
    scenarioSys0.escrow.available 1 AssetKind.CurrencyToken = 0 ∧
    scenarioSys0.escrow.available 2 AssetKind.EnergyToken = 0 := by
  refine ⟨?_, ?_, ?_, ?_, ?_, ?_⟩ <;> with_unfolding_all decide

/-- A run of attempts is constant when one `mark_minting` call leaves the
ledger unchanged: every later caller sees the same state and result. -/
theorem markMintingRun_stable (rid : Nat) (res : MarkResult) :
    ∀ (n : Nat) (L : ReadingLedger), mark_minting L rid = (L, res) →
      markMintingRun L rid n = (L, List.replicate n res) := by
  intro n
  induction n with
  | zero => intro L _; rfl
  | succ m ih =>
      intro L h
      show (let step := mark_minting L rid
            let rest := markMintingRun step.1 rid m
            (rest.1, step.2 :: rest.2)) = (L, List.replicate (m + 1) res)
      rw [h]
      dsimp only
      rw [ih L h]
      rfl

/-- After a winning `mark_minting`, the reading's status is Minting. -/
theorem findReading_after_win (L : ReadingLedger) (rid : Nat) (r : MeterReading)
    (h : findReading L rid = some r) :
    findReading (setStatus L rid MintStatus.Minting) rid =
      some { r with mint_status := MintStatus.Minting } := by
  have hp : (r.reading_id == rid) = true := by
    have := List.find?_some h
    simpa using this
  have hpres : ∀ a : MeterReading,
      ((if a.reading_id == rid then { a with mint_status := MintStatus.Minting } else a).reading_id
        == rid) = (a.reading_id == rid) := by
    intro a
    by_cases ha : a.reading_id == rid
    · simp [ha]
    · simp [ha]
  have h2 : L.readings.find? (fun a => a.reading_id == rid) = some r := h
  show (L.readings.map _).find? _ = _
  rw [find?_map_invariant _ _ hpres, h2, Option.map_some', if_pos hp]

/-- C3: of any number of linearized concurrent `mark_minting` attempts on
one reading, at most one wins (CAS semantics: only the Unminted→Minting
transition answers ok), and — provided the reading exists and is not in
the MintFailed state — every loser is answered AlreadyMinting or
AlreadyMinted, so the external mint call is invoked at most once while the
reading is Minting. -/
theorem c3_mark_minting_single_winner (L : ReadingLedger) (rid n : Nat) :
    (markMintingRun L rid n).2.count MarkResult.ok ≤ 1 ∧
    (∀ r, findReading L rid = some r → r.mint_status ≠ MintStatus.MintFailed →
      ∀ res ∈ (markMintingRun L rid n).2,
        res = MarkResult.ok ∨ res = MarkResult.AlreadyMinting ∨
          res = MarkResult.AlreadyMinted) := by
  cases hr : findReading L rid with
  | none =>
      have hstep : mark_minting L rid = (L, .NotMintable) := by
        simp [mark_minting, hr]
      rw [markMintingRun_stable rid .NotMintable n L hstep]
      constructor
      · simp [List.count_replicate]
      · intro r hr2
        exact absurd hr2 (by simp)
  | some r =>
      cases hst : r.mint_status with
      | Unminted =>
          have hstep : mark_minting L rid = (setStatus L rid MintStatus.Minting, .ok) := by
            simp [mark_minting, hr, hst]
          have hafter := findReading_after_win L rid r hr
          have hstep2 : mark_minting (setStatus L rid MintStatus.Minting) rid =
              (setStatus L rid MintStatus.Minting, .AlreadyMinting) := by
            simp [mark_minting, hafter]
          cases n with
          | zero => exact ⟨by simp [markMintingRun], by intro _ _ _ res h; simp [markMintingRun] at h⟩
          | succ m =>
              have hrun : markMintingRun L rid (m + 1) =
                  (setStatus L rid MintStatus.Minting,
                   .ok :: List.replicate m MarkResult.AlreadyMinting) := by
                show (let step := mark_minting L rid
                      let rest := markMintingRun step.1 rid m
                      (rest.1, step.2 :: rest.2)) = _
                rw [hstep]
                dsimp only
                rw [markMintingRun_stable rid .AlreadyMinting m _ hstep2]
              rw [hrun]
              constructor
              · simp [List.count_cons, List.count_replicate]
              · intro r2 _ _ res hres
                rcases List.mem_cons.mp hres with h1 | h2
                · exact Or.inl h1
                · exact Or.inr (Or.inl (List.eq_of_mem_replicate h2))
      | Minting =>
          have hstep : mark_minting L rid = (L, .AlreadyMinting) := by
            simp [mark_minting, hr, hst]
          rw [markMintingRun_stable rid .AlreadyMinting n L hstep]
          constructor
          · simp [List.count_replicate]
          · intro r2 _ _ res hres
            exact Or.inr (Or.inl (List.eq_of_mem_replicate hres))
      | Minted =>
          have hstep : mark_minting L rid = (L, .AlreadyMinted) := by
            simp [mark_minting, hr, hst]
          rw [markMintingRun_stable rid .AlreadyMinted n L hstep]
          constructor
          · simp [List.count_replicate]
          · intro r2 _ _ res hres
            exact Or.inr (Or.inr (List.eq_of_mem_replicate hres))
      | MintFailed =>
          have hstep : mark_minting L rid = (L, .NotMintable) := by
            simp [mark_minting, hr, hst]
          rw [markMintingRun_stable rid .NotMintable n L hstep]
          constructor
          · simp [List.count_replicate]
          · intro r2 hr2 hne
            have h2 : r = r2 := by injection hr2
            rw [← h2, hst] at hne
            exact absurd rfl hne

/-- Witness for C3: three back-to-back attempts on the Unminted reading 5 —
exactly the first wins, the count of ok results is at most one, and every
result is ok / AlreadyMinting / AlreadyMinted. -/
theorem c3_mark_minting_single_winner_witness :
    (markMintingRun witnessLedger 5 3).2.count MarkResult.ok ≤ 1 ∧
    (∀ res ∈ (markMintingRun witnessLedger 5 3).2,
      res = MarkResult.ok ∨ res = MarkResult.AlreadyMinting ∨
        res = MarkResult.AlreadyMinted) :=
  ⟨(c3_mark_minting_single_winner witnessLedger 5 3).1,
   (c3_mark_minting_single_winner witnessLedger 5 3).2
     ⟨5, 7, 1, 10, MintStatus.Unminted⟩ rfl (by simp)⟩

/-- One `observe` adds the reading's kwh to its own zone's generated total
and leaves every other zone's total unchanged. -/
theorem total_generated_observe (A : ZoneAggregator) (r : MeterReading) (z : Nat) :
    total_generated_kwh (observe A r) z =
      total_generated_kwh A z + (if r.zone_id == z then r.kwh else 0) := by
  by_cases hz : z = r.zone_id
  · have hb : (r.zone_id == z) = true := by simp [hz]
    rw [hb, if_pos rfl]
    show total_generated_kwh (observe A r) z = total_generated_kwh A z + r.kwh
    unfold observe total_generated_kwh
    dsimp only
    rw [if_pos hz, hz]
    cases hA : A r.zone_id with
    | none => simp
    | some st => simp
  · have hb : (r.zone_id == z) = false := by simp [Ne.symm hz]
    rw [hb, if_neg (by simp), add_zero]
    unfold observe total_generated_kwh
    dsimp only
    rw [if_neg hz]

/-- Folding a reading stream through `observe` accumulates exactly the sum
of the kwh of the readings for each zone. -/
theorem observeAll_total (z : Nat) :
    ∀ (rs : List MeterReading) (A : ZoneAggregator),
      total_generated_kwh (observeAll A rs) z =
        total_generated_kwh A z +
          ((rs.filter (fun r => r.zone_id == z)).map (fun r => r.kwh)).sum := by
  intro rs
  induction rs with
  | nil => intro A; simp [observeAll]
  | cons r rest ih =>
      intro A
      show total_generated_kwh (observeAll (observe A r) rest) z = _
      rw [ih (observe A r), total_generated_observe A r z]
      cases hb : (r.zone_id == z) with
      | true => simp [List.filter_cons, hb]; ring
      | false => simp [List.filter_cons, hb]

/-- C4: a zone's total_generated_kwh never decreases under `observe` (all
readings are generation-only, with nonnegative kwh), and after any
sequence of observed readings it equals exactly the sum of the kwh of the
readings observed for that zone. -/
theorem c4_zone_generated_total :
    (∀ (A : ZoneAggregator) (r : MeterReading) (z : Nat), 0 ≤ r.kwh →
      total_generated_kwh A z ≤ total_generated_kwh (observe A r) z) ∧
    (∀ (rs : List MeterReading) (z : Nat),
      total_generated_kwh (observeAll emptyAggregator rs) z =
        ((rs.filter (fun r => r.zone_id == z)).map (fun r => r.kwh)).sum) := by
  constructor
  · intro A r z hk
    rw [total_generated_observe A r z]
    have : (0:ℚ) ≤ (if r.zone_id == z then r.kwh else 0) := by
      split
      · exact hk
      · exact le_refl 0
    linarith
  · intro rs z
    rw [observeAll_total z rs emptyAggregator]
    show (0:ℚ) + _ = _
    rw [zero_add]

/-- Witness for C4: observing the single 10 kWh reading in zone 1 does not
decrease zone 1's total, and the accumulated total equals the sum 10. -/
theorem c4_zone_generated_total_witness :
    total_generated_kwh emptyAggregator 1 ≤
      total_generated_kwh (observe emptyAggregator witnessReading) 1 ∧
    total_generated_kwh (observeAll emptyAggregator [witnessReading]) 1 =
      (([witnessReading].filter (fun r => r.zone_id == 1)).map (fun r => r.kwh)).sum :=
  ⟨c4_zone_generated_total.1 emptyAggregator witnessReading 1
      (by norm_num [witnessReading]),
   c4_zone_generated_total.2 [witnessReading] 1⟩

end GridTokenX

namespace PyHarness

/-! ## Claim theorems: Python test-script helpers -/

/-- `pySplit` never returns an empty piece list. -/
theorem pySplit_ne_nil (sep : Char) : ∀ l : List Char, pySplit sep l ≠ [] := by
  intro l
  induction l with
  | nil => simp [pySplit]
  | cons c cs ih =>
      by_cases hc : c = sep
      · simp [pySplit, hc]
      · simp only [pySplit, if_neg hc]
        cases hps : pySplit sep cs with
        | nil => simp
        | cons p ps => simp

/-- Splitting a string of the form `a ++ sep :: rest`, when `a` contains no
separator, yields `a` as the first piece followed by the split of `rest`. -/
theorem pySplit_append_sep (sep : Char) :
    ∀ (a rest : List Char), sep ∉ a →
      pySplit sep (a ++ sep :: rest) = a :: pySplit sep rest := by
  intro a
  induction a with
  | nil => intro rest _; simp [pySplit]
  | cons c cs ih =>
      intro rest hmem
      have hc : c ≠ sep := fun h => hmem (by rw [h]; exact List.mem_cons_self sep cs)
      have hcs : sep ∉ cs := fun h => hmem (List.mem_cons_of_mem c h)
      show pySplit sep (c :: (cs ++ sep :: rest)) = (c :: cs) :: pySplit sep rest
      simp only [pySplit, if_neg (fun h => hc h)]
      rw [ih rest hcs]

/-- C9: `get_env_var(key)` returns None when the env file cannot be opened
or no line starts with `key=`; and when the first matching line has the
shape `key=v1=v2` (its value itself containing an `=`), it returns only
`v1`, the text between the first and second `=`, not the full value. -/
theorem c9_get_env_var (key v1 v2 l : List Char) (lines : List (List Char)) :
    (get_env_var none key = none) ∧
    ((∀ l2 ∈ lines, ((key ++ [ '=' ]).isPrefixOf l2) = false) →
      get_env_var (some lines) key = none) ∧
    (lines.find? (fun l2 => (key ++ [ '=' ]).isPrefixOf l2) = some l →
      l = key ++ ('=' :: (v1 ++ ('=' :: v2))) →
      pyStrip l = l →
      '=' ∉ key → '=' ∉ v1 →
      get_env_var (some lines) key = some v1) := by
  refine ⟨rfl, ?_, ?_⟩
  · intro hnone
    have hfind : lines.find? (fun l2 => (key ++ [ '=' ]).isPrefixOf l2) = none := by
      rw [List.find?_eq_none]
      intro x hx
      simp [hnone x hx]
    simp [get_env_var, hfind]
  · intro hfind hshape hstrip hkey hv1
    show (match lines.find? (fun l2 => (key ++ [ '=' ]).isPrefixOf l2) with
          | none => none
          | some l => (pySplit '=' (pyStrip l)).get? 1) = some v1
    rw [hfind]
    show (pySplit '=' (pyStrip l)).get? 1 = some v1
    rw [hstrip, hshape]
    rw [pySplit_append_sep '=' key (v1 ++ '=' :: v2) hkey]
    rw [pySplit_append_sep '=' v1 v2 hv1]
    rfl

/-- Witness for C9: on the file `OTHER=x` / `KEY=v1=v2`, looking up `KEY`
returns `v1`; on a file with no `KEY=` line, it returns None. -/
theorem c9_get_env_var_witness :
    get_env_var (some ["OTHER=x".toList, "KEY=v1=v2".toList]) "KEY".toList =
      some "v1".toList ∧
    get_env_var (some ["OTHER=x".toList]) "KEY".toList = none :=
  ⟨(c9_get_env_var "KEY".toList "v1".toList "v2".toList "KEY=v1=v2".toList
      ["OTHER=x".toList, "KEY=v1=v2".toList]).2.2
      (by decide) (by decide) (by decide) (by decide) (by decide),
   (c9_get_env_var "KEY".toList "v1".toList "v2".toList "KEY=v1=v2".toList
      ["OTHER=x".toList]).2.1 (by decide)⟩

end PyHarness

namespace PyHarness

/-- Evaluating the `active_meters` lookup on a grid-status body. -/
theorem dictGet_mkGridData_active (am : ℚ) (zs : List (List Char × Json)) :
    dictGet (mkGridData am zs) ("active_meters".toList) = some (some (Json.num am)) := by
  rfl

/-- Evaluating the `zones` lookup on a grid-status body. -/
theorem dictGet_mkGridData_zones (am : ℚ) (zs : List (List Char × Json)) :
    dictGet (mkGridData am zs) ("zones".toList) = some (some (Json.obj zs)) := by
  rfl

/-- C10: with `check_zones=True`, `verify_grid_status` exits with status 1
not only when zone key "1" is absent from the zones object, but whenever
the response maps it to any falsy JSON value (empty object, 0, null) —
`lk1` below is the raw `zones.get("1")` result, covering both the absent
case (`none`) and the present-but-falsy case — and likewise for zone key
"2" even when zone "1" is healthy.  (The active-meters gate is assumed to
pass and the zones object to be nonempty, isolating the zone-entry
checks.) -/
theorem c10_verify_grid_status_falsy_zone (am expected : ℚ)
    (zs : List (List Char × Json)) (lk1 lk2 : Option Json) :
    (¬ am < expected → zs.isEmpty = false →
      dictGet (Json.obj zs) ("1".toList) = some lk1 → truthyOpt lk1 = false →
      verify_grid_status (mkGridData am zs) expected true = some TestOutcome.failed) ∧
    (¬ am < expected → zs.isEmpty = false →
      dictGet (Json.obj zs) ("1".toList) = some lk1 → truthyOpt lk1 = true →
      dictGet (Json.obj zs) ("2".toList) = some lk2 → truthyOpt lk2 = false →
      verify_grid_status (mkGridData am zs) expected true = some TestOutcome.failed) := by
  constructor
  · intro ham hne h1 ht1
    unfold verify_grid_status
    rw [dictGet_mkGridData_active]
    dsimp only [Option.getD]
    rw [if_neg ham]
    rw [dictGet_mkGridData_zones]
    dsimp only
    have hzs : truthyOpt (some (Json.obj zs)) = true := by
      simp [truthyOpt, truthy, hne]
    rw [if_pos hzs]
    rw [h1]
    dsimp only [pyOr]
    rw [ht1]
    rfl
  · intro ham hne h1 ht1 h2 ht2
    unfold verify_grid_status
    rw [dictGet_mkGridData_active]
    dsimp only [Option.getD]
    rw [if_neg ham]
    rw [dictGet_mkGridData_zones]
    dsimp only
    have hzs : truthyOpt (some (Json.obj zs)) = true := by
      simp [truthyOpt, truthy, hne]
    rw [if_pos hzs]
    rw [h1]
    dsimp only [pyOr]
    rw [ht1]
    have hred : (if true = true then lk1 else none) = lk1 := if_pos rfl
    rw [hred]
    rw [if_pos ht1]
    rw [h2]
    dsimp only [pyOr]
    rw [ht2]
    rfl

/-- Witness for C10: an empty-object zone "1" fails the check, and with a
healthy zone "1" a zone "2" of 0 fails it. -/
theorem c10_verify_grid_status_falsy_zone_witness :
    verify_grid_status
        (mkGridData 3 [("1".toList, Json.obj []), ("2".toList, Json.null)]) 3 true =
      some TestOutcome.failed ∧
    verify_grid_status
        (mkGridData 3 [("1".toList, Json.num 5), ("2".toList, Json.num 0)]) 3 true =
      some TestOutcome.failed :=
  ⟨(c10_verify_grid_status_falsy_zone 3 3
      [("1".toList, Json.obj []), ("2".toList, Json.null)]
      (some (Json.obj [])) none).1
      (by norm_num) rfl rfl rfl,
   (c10_verify_grid_status_falsy_zone 3 3
      [("1".toList, Json.num 5), ("2".toList, Json.num 0)]
      (some (Json.num 5)) (some (Json.num 0))).2
      (by norm_num) rfl rfl (by decide) rfl (by decide)⟩

end PyHarness
